import Mathlib

/-!
Verification development for the restate-mcp-server repository
(`src/index.ts` and `src/schemas.ts`).

The TypeScript source is shallowly embedded: JSON values become an
inductive type, the platform `JSON.parse` is threaded as an explicit
function `String → Except String Json` (an `Except.error` models the
thrown `SyntaxError` and carries its message), HTTP traffic is an
explicit `FetchOutcome`, and every thrown `Error` becomes an
`Except.error` carrying the error message string.  JSON numbers are
modelled as integers; no property below depends on non-integral
numbers.
-/

namespace RestateMcp

/-- JSON values as produced by the platform JSON parser.  JavaScript
object literals in the rows handled below have no duplicate keys, so an
association list with first-match lookup is a faithful model. -/
inductive Json where
  | null : Json
  | bool : Bool → Json
  | num : Int → Json
  | str : String → Json
  | arr : List Json → Json
  | obj : List (String × Json) → Json

/-- JavaScript truthiness of a JSON value (`Boolean(v)`). -/
def Json.truthy : Json → Bool
  | .null => false
  | .bool b => b
  | .num n => n != 0
  | .str s => !(s == "")
  | .arr _ => true
  | .obj _ => true

/-- First-match lookup in an object key list. -/
def lookupKey : List (String × Json) → String → Option Json
  | [], _ => none
  | (k, v) :: rest, key => if k == key then some v else lookupKey rest key

/-- JavaScript property access `o[key]` on a parsed JSON value: `none`
models `undefined` (missing key, or access on a non-object). -/
def Json.lookup : Json → String → Option Json
  | .obj kvs, key => lookupKey kvs key
  | _, _ => none

/-- JavaScript `a || b` where `a` is a possibly-undefined JSON property
and `b` a JSON value: the property when truthy, otherwise the fallback. -/
def jsOrJson (v : Option Json) (fallback : Json) : Json :=
  match v with
  | some j => if j.truthy then j else fallback
  | none => fallback

/-- JavaScript `a || undefined`: the property when truthy, else `undefined`. -/
def jsOrDrop (v : Option Json) : Option Json :=
  match v with
  | some j => if j.truthy then some j else none
  | none => none

mutual
/-- JavaScript `String(v)` / template-literal interpolation of a JSON value. -/
def Json.jsString : Json → String
  | .null => "null"
  | .bool b => if b then "true" else "false"
  | .num n => toString n
  | .str s => s
  | .arr l => Json.jsStringArray l
  | .obj _ => "[object Object]"

/-- `Array.prototype.toString`: elements joined with commas, `null`
elements rendered as the empty string. -/
def Json.jsStringArray : List Json → String
  | [] => ""
  | [j] => Json.jsStringElem j
  | j :: rest => Json.jsStringElem j ++ "," ++ Json.jsStringArray rest

/-- One element of an array join; `null` joins as the empty string. -/
def Json.jsStringElem : Json → String
  | .null => ""
  | .bool b => if b then "true" else "false"
  | .num n => toString n
  | .str s => s
  | .arr l => Json.jsStringArray l
  | .obj _ => "[object Object]"
end

/-- Hexadecimal digit for JSON string escapes. -/
def hexDigit (n : Nat) : String := String.singleton (Nat.digitChar n)

/-- `JSON.stringify` escaping of one character inside a string literal. -/
def escapeChar (c : Char) : String :=
  if c == '"' then "\\\""
  else if c == '\\' then "\\\\"
  else if c == '\n' then "\\n"
  else if c == '\r' then "\\r"
  else if c == '\t' then "\\t"
  else if c.toNat == 8 then "\\b"
  else if c.toNat == 12 then "\\f"
  else if c.toNat < 32 then "\\u00" ++ hexDigit (c.toNat / 16) ++ hexDigit (c.toNat % 16)
  else String.singleton c

/-- `JSON.stringify` escaping of a string body. -/
def escapeJson (s : String) : String := String.join (s.data.map escapeChar)

mutual
/-- Compact `JSON.stringify(v)` (no indent argument). -/
def Json.stringifyC : Json → String
  | .null => "null"
  | .bool b => if b then "true" else "false"
  | .num n => toString n
  | .str s => "\"" ++ escapeJson s ++ "\""
  | .arr l => "[" ++ Json.stringifyArr l ++ "]"
  | .obj kvs => "\x7b" ++ Json.stringifyObj kvs ++ "\x7d"

/-- Comma-joined serialization of array elements. -/
def Json.stringifyArr : List Json → String
  | [] => ""
  | [j] => Json.stringifyC j
  | j :: rest => Json.stringifyC j ++ "," ++ Json.stringifyArr rest

/-- Comma-joined serialization of object entries. -/
def Json.stringifyObj : List (String × Json) → String
  | [] => ""
  | [(k, v)] => "\"" ++ escapeJson k ++ "\":" ++ Json.stringifyC v
  | (k, v) :: rest =>
      "\"" ++ escapeJson k ++ "\":" ++ Json.stringifyC v ++ "," ++ Json.stringifyObj rest
end

/-- Character-list prefix test. -/
def charsPre : List Char → List Char → Bool
  | [], _ => true
  | _ :: _, [] => false
  | a :: as, b :: bs => a == b && charsPre as bs

/-- Character-list infix test. -/
def charsInfix : List Char → List Char → Bool
  | needle, [] => needle.isEmpty
  | needle, c :: rest => charsPre needle (c :: rest) || charsInfix needle rest

/-- Substring test, modelling `String.prototype.includes`. -/
def strContains (hay needle : String) : Bool := charsInfix needle.data hay.data

/-- The relevant parts of a `fetch` `Response`: status, status text, the
`Content-Length` and `Content-Type` headers (as `headers.get` returns
them, `none` for absent), and the body text.  `response.json()` is
modelled as the threaded parse function applied to the body text. -/
structure HttpResponse where
  status : Nat
  statusText : String
  contentLength : Option String
  contentType : Option String
  bodyText : String

/-- Outcome of one `fetch` call: the promise rejects with an `Error`
carrying a message, or resolves to a response. -/
inductive FetchOutcome where
  | networkError : String → FetchOutcome
  | response : HttpResponse → FetchOutcome

/-- `Response.ok`: status in the inclusive range 200–299. -/
def statusOk (status : Nat) : Bool := 200 ≤ status && status ≤ 299

/-- The non-2xx branch of `fetchWithOptions` (src/index.ts lines 32–42):
the body text is read, then inside a `try` block `JSON.parse` is applied
and an `Error` with the extracted message is thrown; both the parse
failure and the deliberately thrown `Error` land in the following
blanket `catch`, which throws the raw-text variant.  The `tryBlock`
value is the message of whatever the `try` block throws. -/
def nonOkErrorMessage (parse : String → Except String Json) (status : Nat)
    (statusText errorText : String) : String :=
  let tryBlock : Except String String :=
    match parse errorText with
    | .ok errorJson =>
        .error (toString status ++ " " ++ statusText ++ ": " ++
          (jsOrJson (errorJson.lookup "message") (Json.str errorText)).jsString)
    | .error e => .error e
  match tryBlock with
  | .ok m => m
  | .error _ => toString status ++ " " ++ statusText ++ ": " ++ errorText

/-- `fetchWithOptions` (src/index.ts lines 20–55): non-2xx statuses
throw the error built by `nonOkErrorMessage`; a 204 status or a
`Content-Length: 0` header short-circuits to `null`; otherwise the body
is JSON-parsed.  The surrounding `try`/`catch` rewraps every thrown
`Error` as `Failed to fetch <url>: <message>`. -/
def fetchWithOptions (parse : String → Except String Json) (url : String)
    (outcome : FetchOutcome) : Except String (Option Json) :=
  let inner : Except String (Option Json) :=
    match outcome with
    | .networkError message => .error message
    | .response r =>
        if !statusOk r.status then
          .error (nonOkErrorMessage parse r.status r.statusText r.bodyText)
        else if r.status == 204 || r.contentLength == some "0" then
          .ok none
        else
          match parse r.bodyText with
          | .ok j => .ok (some j)
          | .error e => .error e
  match inner with
  | .ok v => .ok v
  | .error message => .error ("Failed to fetch " ++ url ++ ": " ++ message)

/-- `restateApi.queryKVState` (src/index.ts lines 130–166): a direct
`fetch` to the query endpoint.  Non-2xx statuses throw a
`Server error: ...` message; a truthy declared content type not
containing `application/json` throws `Unexpected response type: ...`;
otherwise the body is read as text and JSON-parsed, a parse failure
throwing `Invalid JSON response: ` followed by the first 50 characters
of the body and an ellipsis.  The enclosing `catch` rewraps every
thrown `Error` message with the `SQL query error: ` prefix. -/
def queryKVState (parse : String → Except String Json)
    (outcome : FetchOutcome) : Except String Json :=
  let inner : Except String Json :=
    match outcome with
    | .networkError message => .error message
    | .response r =>
        if !statusOk r.status then
          .error ("Server error: " ++ toString r.status ++ " " ++ r.statusText
            ++ " - " ++ r.bodyText)
        else
          let ctRejected : Option String :=
            match r.contentType with
            | some ct =>
                if !(ct == "") && !strContains ct "application/json" then
                  some ("Unexpected response type: " ++ ct)
                else none
            | none => none
          match ctRejected with
          | some msg => .error msg
          | none =>
              match parse r.bodyText with
              | .ok j => .ok j
              | .error _ =>
                  .error ("Invalid JSON response: " ++ r.bodyText.take 50 ++ "...")
  match inner with
  | .ok j => .ok j
  | .error message => .error ("SQL query error: " ++ message)

/-- The fixed introspection query issued by `restateApi.listInvocations`
(src/index.ts line 113). -/
def listInvocationsQuery : String :=
  "SELECT * FROM sys_invocation WHERE status = \x27Running\x27"

/-- The minimal invocation projection built per result row
(src/index.ts lines 117–125).  `object_key : Option Json` models the
`row.object_key || undefined` field, which `JSON.stringify` later drops
when `none`. -/
structure InvocationRow where
  id : Json
  service : Json
  handler : Json
  status : Json
  started_at : Json
  completed_at : Json
  object_key : Option Json

/-- The per-row reshaping in `listInvocations`; `now` models
`new Date().toISOString()`. -/
def projectInvocationRow (now : String) (row : Json) : InvocationRow :=
  { id := jsOrJson (row.lookup "id") (Json.str "")
    service := jsOrJson (row.lookup "service_name") (Json.str "")
    handler := jsOrJson (row.lookup "handler_name") (Json.str "")
    status := jsOrJson (row.lookup "status") (Json.str "Running")
    started_at := jsOrJson (row.lookup "started_at") (Json.str now)
    completed_at := jsOrJson (row.lookup "completed_at") Json.null
    object_key := jsOrDrop (row.lookup "object_key") }

/-- `restateApi.listInvocations` (src/index.ts lines 111–128): issue the
fixed query through `queryKVState`, then map every row of
`result.rows || []` through the projection.  `runtime` models the
runtime endpoint, answering whatever query string the client sends; a
truthy non-array `rows` value would make `.map` throw a `TypeError`. -/
def listInvocations (parse : String → Except String Json) (now : String)
    (runtime : String → FetchOutcome) : Except String (List InvocationRow) :=
  match queryKVState parse (runtime listInvocationsQuery) with
  | .error e => .error e
  | .ok result =>
      match jsOrJson (result.lookup "rows") (Json.arr []) with
      | .arr rows => .ok (rows.map (projectInvocationRow now))
      | _ => .error "TypeError: result.rows.map is not a function"

/-- The partial patch object built by the `modify-service` tool handler
(src/index.ts lines 521–530): start from the empty object, add `public`
only when `isPublic` was supplied, add `idempotency_retention` only
when `idempotencyRetention` was supplied. -/
def modifyServiceOptions (isPublic : Option Bool)
    (idempotencyRetention : Option String) : List (String × Json) :=
  let options : List (String × Json) := []
  let options :=
    match isPublic with
    | some b => options ++ [("public", Json.bool b)]
    | none => options
  match idempotencyRetention with
  | some s => options ++ [("idempotency_retention", Json.str s)]
  | none => options

/-- The `JSON.stringify(options)` PATCH body sent by
`restateApi.modifyService` (src/index.ts line 106). -/
def modifyServiceBody (isPublic : Option Bool)
    (idempotencyRetention : Option String) : String :=
  Json.stringifyC (Json.obj (modifyServiceOptions isPublic idempotencyRetention))

/-- The DELETE URL built by `restateApi.deleteDeployment`
(src/index.ts line 81); a boolean interpolates as `true`/`false`. -/
def deleteDeploymentUrl (base deploymentId : String) (force : Bool) : String :=
  base ++ "/deployments/" ++ deploymentId ++ "?force="
    ++ (if force then "true" else "false")

/-- The `force` argument default of the `delete-deployment` tool,
`z.boolean().default(true)` (src/index.ts line 462). -/
def deleteDeploymentForceDefault : Bool := true

/-- Resolution of the `force` tool argument: the zod default fills in
`true` when the caller omits it. -/
def resolveForceArg (force : Option Bool) : Bool :=
  force.getD deleteDeploymentForceDefault

/-- The `delete-deployment` tool handler (src/index.ts lines 457–475):
await `restateApi.deleteDeployment` (one `fetchWithOptions` DELETE call
whose result is discarded) and return the fixed confirmation text. -/
def deleteDeploymentTool (parse : String → Except String Json) (base : String)
    (runtime : String → FetchOutcome) (deploymentId : String)
    (force : Option Bool) : Except String String :=
  let f := resolveForceArg force
  let url := deleteDeploymentUrl base deploymentId f
  match fetchWithOptions parse url (runtime url) with
  | .ok _ => .ok ("Successfully deleted deployment: " ++ deploymentId)
  | .error e => .error e

/-! ## Zod deployment-response schema (src/schemas.ts lines 10–37)

A zod object schema accepts a JSON object when every declared required
key is present and conforms and every declared optional key, when
present, conforms; unknown keys are ignored (stripped).  `z.union`
tries its options in order and succeeds on the first match. -/

/-- `z.string()` acceptance. -/
def isString : Json → Bool
  | .str _ => true
  | _ => false

/-- `z.number().int()` acceptance (numbers are modelled as integers). -/
def isInt : Json → Bool
  | .num _ => true
  | _ => false

/-- `z.record(z.string())` acceptance. -/
def isStringRecord : Json → Bool
  | .obj kvs => kvs.all fun kv => isString kv.2
  | _ => false

/-- Required-field check of a zod object schema. -/
def reqField (kvs : List (String × Json)) (key : String) (p : Json → Bool) : Bool :=
  match lookupKey kvs key with
  | some v => p v
  | none => false

/-- Optional-field check of a zod object schema (`.optional()`). -/
def optField (kvs : List (String × Json)) (key : String) (p : Json → Bool) : Bool :=
  match lookupKey kvs key with
  | some v => p v
  | none => true

/-- `ServiceNameRevPairSchema`: name string, revision int ≥ 0. -/
def isServiceNameRevPair : Json → Bool
  | .obj kvs =>
      reqField kvs "name" isString &&
      reqField kvs "revision" (fun v =>
        match v with
        | .num n => decide (0 ≤ n)
        | _ => false)
  | _ => false

/-- `z.array(ServiceNameRevPairSchema)` acceptance. -/
def isServicesArray : Json → Bool
  | .arr l => l.all isServiceNameRevPair
  | _ => false

/-- `DeploymentBaseSchema` fields: id string, services array. -/
def matchesDeploymentBase (kvs : List (String × Json)) : Bool :=
  reqField kvs "id" isString && reqField kvs "services" isServicesArray

/-- Structural acceptance by `HttpDeploymentSchema`. -/
def matchesHttpDeployment : Json → Bool
  | .obj kvs =>
      matchesDeploymentBase kvs &&
      reqField kvs "uri" isString &&
      reqField kvs "protocol_type" (fun v =>
        match v with
        | .str s => s == "RequestResponse" || s == "BidiStream"
        | _ => false) &&
      reqField kvs "http_version" isString &&
      reqField kvs "created_at" isString &&
      reqField kvs "min_protocol_version" isInt &&
      reqField kvs "max_protocol_version" isInt &&
      optField kvs "additional_headers" isStringRecord
  | _ => false

/-- Structural acceptance by `LambdaDeploymentSchema`;
`assume_role_arn` is `.nullable().optional()`. -/
def matchesLambdaDeployment : Json → Bool
  | .obj kvs =>
      matchesDeploymentBase kvs &&
      reqField kvs "arn" isString &&
      optField kvs "assume_role_arn" (fun v =>
        match v with
        | .null => true
        | .str _ => true
        | _ => false) &&
      reqField kvs "created_at" isString &&
      reqField kvs "min_protocol_version" isInt &&
      reqField kvs "max_protocol_version" isInt &&
      optField kvs "additional_headers" isStringRecord
  | _ => false

/-- Which branch of the deployment-response union validated. -/
inductive DeploymentKind where
  | http : DeploymentKind
  | lambda : DeploymentKind
deriving DecidableEq

/-- `DeploymentResponseSchema.parse` branch selection:
`z.union([HttpDeploymentSchema, LambdaDeploymentSchema])` tries the
HTTP branch first, then the Lambda branch, and fails when neither
matches. -/
def deploymentResponseParse (j : Json) : Except String DeploymentKind :=
  if matchesHttpDeployment j then .ok .http
  else if matchesLambdaDeployment j then .ok .lambda
  else .error "invalid_union"

/-! ## Tool registry (src/index.ts lines 392–561) -/

/-- The names of the tools registered through `server.tool`, in source
order. -/
def registeredToolNames : List String :=
  ["list-deployments", "get-deployment", "create-deployment",
   "delete-deployment", "list-services", "get-service", "modify-service",
   "query"]

/-- The tools that the in-server `restate-tools-guide` resource documents
under "Available Tools" (src/index.ts lines 196–206), in source order. -/
def toolsGuideDocumentedTools : List String :=
  ["list-deployments", "get-deployment", "create-deployment",
   "delete-deployment", "list-services", "get-service", "modify-service",
   "list-invocations", "query"]

/-! ## Concrete scenario data -/

/-- The platform `JSON.parse` restricted to the concrete body texts used
in the scenarios below: the two well-formed JSON texts map to their
parse trees, everything else (including the empty string and `x`) is a
`SyntaxError`. -/
def jsonParseAt : String → Except String Json := fun s =>
  if s == "\x7b\"message\":\"X\"\x7d" then
    .ok (Json.obj [("message", Json.str "X")])
  else if s == "\x7b\"rows\":[]\x7d" then
    .ok (Json.obj [("rows", Json.arr [])])
  else
    .error "Unexpected token in JSON"

/-- A deployment-response object carrying every `HttpDeploymentSchema`
field and additionally an `arn`, so that it is structurally accepted by
both union branches (zod object schemas ignore unknown keys). -/
def bothKindsDeployment : Json :=
  Json.obj
    [("id", Json.str "dp_1"),
     ("services", Json.arr [Json.obj [("name", Json.str "Greeter"), ("revision", Json.num 1)]]),
     ("uri", Json.str "http://localhost:9080"),
     ("protocol_type", Json.str "RequestResponse"),
     ("http_version", Json.str "HTTP/2"),
     ("created_at", Json.str "2024-01-01T00:00:00Z"),
     ("min_protocol_version", Json.num 1),
     ("max_protocol_version", Json.num 2),
     ("arn", Json.str "arn:aws:lambda:us-east-1:123456789012:function:greeter")]

/-- A deployment-response object matching only `LambdaDeploymentSchema`. -/
def lambdaOnlyDeployment : Json :=
  Json.obj
    [("id", Json.str "dp_2"),
     ("services", Json.arr []),
     ("arn", Json.str "arn:aws:lambda:us-east-1:123456789012:function:greeter"),
     ("created_at", Json.str "2024-01-01T00:00:00Z"),
     ("min_protocol_version", Json.num 1),
     ("max_protocol_version", Json.num 2)]

/-! ## Claims -/

/-- String concatenation is associative (helper for message-shape goals). -/
theorem stringAppendAssocHelper (a b c : String) : a ++ (b ++ c) = a ++ b ++ c := by
  cases a with
  | mk la =>
    cases b with
    | mk lb =>
      cases c with
      | mk lc =>
        show String.mk (la ++ (lb ++ lc)) = String.mk ((la ++ lb) ++ lc)
        rw [List.append_assoc]

/-- C1: in the non-2xx branch of `fetchWithOptions`, the `Error` thrown
inside the `try` block is swallowed by its own blanket `catch`, so the
produced error always embeds the raw body text and never the value of
the JSON `message` field: for every parse function and response the
non-2xx message is `<status> <statusText>: <raw body>`, and at the
concrete failing input (status 500, body `{"message":"X"}`) the
operation fails with the raw body embedded, not with `: X`. -/
theorem c1_nonOk_error_uses_raw_body :
    (∀ (parse : String → Except String Json) (status : Nat)
        (statusText errorText : String),
      nonOkErrorMessage parse status statusText errorText
        = toString status ++ " " ++ statusText ++ ": " ++ errorText)
    ∧ fetchWithOptions jsonParseAt "http://localhost:9070/deployments"
        (.response ⟨500, "Internal Server Error", none, none, "\x7b\"message\":\"X\"\x7d"⟩)
      = .error "Failed to fetch http://localhost:9070/deployments: 500 Internal Server Error: \x7b\"message\":\"X\"\x7d" := by
  constructor
  · intro parse status statusText errorText
    unfold nonOkErrorMessage
    cases parse errorText <;> rfl
  · rfl

/-- C2: no tool named `list-invocations` is registered through
`server.tool`, although the in-server `restate-tools-guide` resource
documents it as an available tool (and `restateApi.listInvocations`
exists unexposed). -/
theorem c2_list_invocations_tool_not_registered :
    "list-invocations" ∈ toolsGuideDocumentedTools
      ∧ "list-invocations" ∉ registeredToolNames := by
  constructor
  · decide
  · decide

/-- C3 counterexample: `bothKindsDeployment` structurally matches both
union branches (zod object schemas ignore unknown keys) yet
`DeploymentResponseSchema` accepts it through the first (HTTP) branch
instead of rejecting it, refuting the claim that an object matching
both branches is a validation failure. -/
theorem c3_counterexample :
    matchesHttpDeployment bothKindsDeployment = true
    ∧ matchesLambdaDeployment bothKindsDeployment = true
    ∧ deploymentResponseParse bothKindsDeployment = .ok .http :=
  ⟨rfl, rfl, rfl⟩

/-- C3 amended: the union validator tries the HTTP branch first and
selects the first structural match; an object matching neither branch
is rejected, and a parse succeeds exactly when at least one branch
matches (an object matching both branches is accepted via the HTTP
branch). -/
theorem c3_union_first_match (j : Json) :
    (matchesHttpDeployment j = true → deploymentResponseParse j = .ok .http)
    ∧ (matchesHttpDeployment j = false → matchesLambdaDeployment j = true →
        deploymentResponseParse j = .ok .lambda)
    ∧ (matchesHttpDeployment j = false → matchesLambdaDeployment j = false →
        deploymentResponseParse j = .error "invalid_union")
    ∧ ((deploymentResponseParse j).isOk
        = (matchesHttpDeployment j || matchesLambdaDeployment j)) := by
  unfold deploymentResponseParse
  cases hh : matchesHttpDeployment j <;> cases hl : matchesLambdaDeployment j <;>
    simp [Except.isOk, Except.toBool]

/-- C3 witness: a pure Lambda deployment object is accepted through the
second branch. -/
theorem c3_union_first_match_witness :
    deploymentResponseParse lambdaOnlyDeployment = .ok .lambda :=
  (c3_union_first_match lambdaOnlyDeployment).2.1 rfl rfl

/-- C4 counterexample: a non-2xx response whose `Content-Length` header
is `0` does not short-circuit to `null`: the non-2xx check runs first
and the call fails, refuting the claim for arbitrary (non-2xx)
responses with a zero-length declared body. -/
theorem c4_counterexample :
    fetchWithOptions jsonParseAt "http://localhost:9070/deployments/dep_1?force=true"
      (.response ⟨404, "Not Found", some "0", none, ""⟩)
    = .error "Failed to fetch http://localhost:9070/deployments/dep_1?force=true: 404 Not Found: " :=
  rfl

/-- C4 amended: every 2xx response with status 204 or with a declared
`Content-Length` of `0` yields `null` without any parse attempt (the
result is `.ok none` for every parse function); a non-2xx response
instead takes the error path. -/
theorem c4_empty_body_null (r : HttpResponse)
    (hok : statusOk r.status = true)
    (hshort : r.status = 204 ∨ r.contentLength = some "0") :
    ∀ (parse : String → Except String Json) (url : String),
      fetchWithOptions parse url (.response r) = .ok none := by
  intro parse url
  unfold fetchWithOptions
  rcases hshort with h | h
  · simp [h, show statusOk 204 = true by decide]
  · simp [hok, h]

/-- C4 witness: a 204 delete response yields `null`. -/
theorem c4_empty_body_null_witness :
    fetchWithOptions jsonParseAt "http://localhost:9070/deployments/dep_1?force=true"
      (.response ⟨204, "No Content", none, none, ""⟩) = .ok none :=
  c4_empty_body_null ⟨204, "No Content", none, none, ""⟩ (by decide) (Or.inl rfl)
    jsonParseAt "http://localhost:9070/deployments/dep_1?force=true"

/-- C5: the `modify-service` PATCH body contains exactly the fields the
caller supplied: `public` is a key of the patch object exactly when
`isPublic` was supplied, `idempotency_retention` exactly when
`idempotencyRetention` was supplied; with only `isPublic` set the
serialized body never contains `idempotency_retention`, and with only
`idempotencyRetention` set the patch object has no `public` key. -/
theorem c5_modify_service_partial_patch :
    ∀ (isPublic : Option Bool) (idempotencyRetention : Option String),
      (("public" ∈ (modifyServiceOptions isPublic idempotencyRetention).map Prod.fst)
          ↔ isPublic.isSome)
      ∧ (("idempotency_retention"
            ∈ (modifyServiceOptions isPublic idempotencyRetention).map Prod.fst)
          ↔ idempotencyRetention.isSome)
      ∧ (∀ b, strContains (modifyServiceBody (some b) none) "idempotency_retention" = false)
      ∧ (∀ s, "public" ∉ (modifyServiceOptions none (some s)).map Prod.fst) := by
  intro pb ir
  refine ⟨?_, ?_, ?_, ?_⟩
  · cases pb <;> cases ir <;> simp [modifyServiceOptions]
  · cases pb <;> cases ir <;> simp [modifyServiceOptions]
  · intro b
    cases b <;> decide
  · intro s
    simp [modifyServiceOptions]

set_option maxRecDepth 4000 in
/-- C6 counterexample: a 2xx JSON-declared response with the one-character
non-JSON body `x` fails with a message that contains the payload in
full (refuting "never the full payload"), and a 2xx response whose
declared content type is present but empty — hence not JSON — is
silently parsed rather than rejected (refuting "present and not JSON
causes a failure"). -/
theorem c6_counterexample :
    (queryKVState jsonParseAt
        (.response ⟨200, "OK", none, some "application/json", "x"⟩)
      = .error "SQL query error: Invalid JSON response: x..."
    ∧ strContains "SQL query error: Invalid JSON response: x..." "x" = true)
    ∧ queryKVState jsonParseAt
        (.response ⟨200, "OK", none, some "", "\x7b\"rows\":[]\x7d"⟩)
      = .ok (Json.obj [("rows", Json.arr [])]) :=
  ⟨⟨rfl, rfl⟩, rfl⟩

/-- C6 amended: a 2xx response whose declared content type is present,
nonempty and does not contain `application/json` fails with the
content-type message; a 2xx response whose content type is absent,
empty, or JSON and whose body fails to parse fails with a message that
embeds the first 50 characters of the offending payload followed by an
ellipsis (the whole payload when it has at most 50 characters). -/
theorem c6_query_decode_errors (parse : String → Except String Json)
    (r : HttpResponse) (hok : statusOk r.status = true) :
    (∀ ct, r.contentType = some ct → ct ≠ "" →
      strContains ct "application/json" = false →
      queryKVState parse (.response r)
        = .error ("SQL query error: Unexpected response type: " ++ ct))
    ∧ (∀ e, (r.contentType = none ∨ r.contentType = some ""
          ∨ (∃ ct, r.contentType = some ct ∧ strContains ct "application/json" = true)) →
        parse r.bodyText = .error e →
        queryKVState parse (.response r)
          = .error ("SQL query error: Invalid JSON response: "
              ++ r.bodyText.take 50 ++ "...")) := by
  constructor
  · intro ct hct hne hnj
    unfold queryKVState
    simp [hok, hct, hne, hnj, stringAppendAssocHelper]
  · intro e hct hparse
    unfold queryKVState
    rcases hct with h | h | ⟨ct, hct, hj⟩
    · simp [hok, h, hparse, stringAppendAssocHelper]
    · simp [hok, h, hparse, stringAppendAssocHelper]
    · simp [hok, hct, hj, hparse, stringAppendAssocHelper]

/-- C6 witness: a JSON-undeclared 2xx response with the 7-character
invalid body `notjson` fails with the truncated-preview message. -/
theorem c6_query_decode_errors_witness :
    queryKVState jsonParseAt (.response ⟨200, "OK", none, none, "notjson"⟩)
      = .error ("SQL query error: Invalid JSON response: "
          ++ String.take "notjson" 50 ++ "...") :=
  (c6_query_decode_errors jsonParseAt ⟨200, "OK", none, none, "notjson"⟩
    (by decide)).2 "Unexpected token in JSON" (Or.inl rfl) rfl

/-- C7: on a 2xx response that is neither 204 nor zero-length, a JSON
parse failure of the body is wrapped by `fetchWithOptions` as
`Failed to fetch <url>: <underlying message>` — the same shape a
network failure produces — and is never silently replaced by the raw
text. -/
theorem c7_parse_failure_wrapped :
    (∀ (parse : String → Except String Json) (url : String)
        (r : HttpResponse) (e : String),
      statusOk r.status = true → r.status ≠ 204 → r.contentLength ≠ some "0" →
      parse r.bodyText = .error e →
      fetchWithOptions parse url (.response r)
        = .error ("Failed to fetch " ++ url ++ ": " ++ e))
    ∧ (∀ (parse : String → Except String Json) (url msg : String),
      fetchWithOptions parse url (.networkError msg)
        = .error ("Failed to fetch " ++ url ++ ": " ++ msg)) := by
  constructor
  · intro parse url r e hok h204 hcl hparse
    unfold fetchWithOptions
    simp [hok, h204, hcl, hparse]
  · intro parse url msg
    rfl

/-- C7 witness: a 200 response with invalid JSON body `x` is wrapped
exactly like a network failure. -/
theorem c7_parse_failure_wrapped_witness :
    fetchWithOptions jsonParseAt "http://localhost:9070/services"
      (.response ⟨200, "OK", none, none, "x"⟩)
      = .error ("Failed to fetch " ++ "http://localhost:9070/services"
          ++ ": " ++ "Unexpected token in JSON") :=
  c7_parse_failure_wrapped.1 jsonParseAt "http://localhost:9070/services"
    ⟨200, "OK", none, none, "x"⟩ "Unexpected token in JSON"
    (by decide) (by decide) (by decide) rfl

/-- C8: `listInvocations` issues exactly one introspection query — the
fixed literal with the case-sensitive `Running` status — (the result
depends on the runtime only at that one query string), and each result
row missing an expected column receives the safe fallback: empty string
for id/service/handler, `Running` for status, the current timestamp for
started_at, and null for completed_at, with the projection total
(never throwing). -/
theorem c8_list_invocations_fallbacks :
    (listInvocationsQuery = "SELECT * FROM sys_invocation WHERE status = \x27Running\x27")
    ∧ (∀ (parse : String → Except String Json) (now : String)
        (r1 r2 : String → FetchOutcome),
        r1 listInvocationsQuery = r2 listInvocationsQuery →
        listInvocations parse now r1 = listInvocations parse now r2)
    ∧ (∀ now row, Json.lookup row "completed_at" = none →
        (projectInvocationRow now row).completed_at = Json.null)
    ∧ (∀ now row, Json.lookup row "id" = none →
        (projectInvocationRow now row).id = Json.str "")
    ∧ (∀ now row, Json.lookup row "service_name" = none →
        (projectInvocationRow now row).service = Json.str "")
    ∧ (∀ now row, Json.lookup row "handler_name" = none →
        (projectInvocationRow now row).handler = Json.str "")
    ∧ (∀ now row, Json.lookup row "status" = none →
        (projectInvocationRow now row).status = Json.str "Running")
    ∧ (∀ now row, Json.lookup row "started_at" = none →
        (projectInvocationRow now row).started_at = Json.str now) := by
  refine ⟨rfl, ?_, ?_, ?_, ?_, ?_, ?_, ?_⟩
  · intro parse now r1 r2 h
    unfold listInvocations
    rw [h]
  all_goals intro now row h
  all_goals simp [projectInvocationRow, jsOrJson, h]

/-- C8 witness: a row carrying only an `id` column receives null for
completed_at and the fallbacks for status and started_at, and a
runtime answering only the fixed query determines the result. -/
theorem c8_list_invocations_fallbacks_witness :
    (projectInvocationRow "2024-01-01T00:00:00.000Z"
        (Json.obj [("id", Json.str "inv_1")])).completed_at = Json.null
    ∧ (projectInvocationRow "2024-01-01T00:00:00.000Z"
        (Json.obj [("id", Json.str "inv_1")])).status = Json.str "Running"
    ∧ (projectInvocationRow "2024-01-01T00:00:00.000Z"
        (Json.obj [("id", Json.str "inv_1")])).started_at
      = Json.str "2024-01-01T00:00:00.000Z" :=
  ⟨c8_list_invocations_fallbacks.2.2.1 "2024-01-01T00:00:00.000Z"
      (Json.obj [("id", Json.str "inv_1")]) rfl,
   c8_list_invocations_fallbacks.2.2.2.2.2.2.1 "2024-01-01T00:00:00.000Z"
      (Json.obj [("id", Json.str "inv_1")]) rfl,
   c8_list_invocations_fallbacks.2.2.2.2.2.2.2 "2024-01-01T00:00:00.000Z"
      (Json.obj [("id", Json.str "inv_1")]) rfl⟩

/-- C9: `delete-deployment` against a runtime answering the DELETE URL
with HTTP 204 returns the literal confirmation text
`Successfully deleted deployment: ` followed by the deployment id
(never the echoed API result), the `force` argument defaults to true,
and the default is sent as the `force` query parameter of the URL. -/
theorem c9_delete_deployment_confirmation :
    (∀ (parse : String → Except String Json) (base deploymentId : String)
        (runtime : String → FetchOutcome) (force : Option Bool) (r : HttpResponse),
      runtime (deleteDeploymentUrl base deploymentId (resolveForceArg force))
        = .response r →
      r.status = 204 →
      deleteDeploymentTool parse base runtime deploymentId force
        = .ok ("Successfully deleted deployment: " ++ deploymentId))
    ∧ resolveForceArg none = true
    ∧ (∀ base d, deleteDeploymentUrl base d (resolveForceArg none)
        = base ++ "/deployments/" ++ d ++ "?force=true") := by
  refine ⟨?_, rfl, ?_⟩
  · intro parse base d runtime force r hrun h204
    simp only [deleteDeploymentTool]
    rw [hrun]
    unfold fetchWithOptions
    simp [h204, show statusOk 204 = true by decide]
  · intro base d
    show base ++ "/deployments/" ++ d ++ "?force=" ++ "true"
      = base ++ "/deployments/" ++ d ++ "?force=true"
    rw [← stringAppendAssocHelper]
    rfl

/-- C9 witness: the concrete scenario of the spec, `deploymentId`
`dep_1` with `force` omitted against a runtime answering 204. -/
theorem c9_delete_deployment_confirmation_witness :
    deleteDeploymentTool jsonParseAt "http://localhost:9070"
      (fun _ => FetchOutcome.response ⟨204, "No Content", none, none, ""⟩)
      "dep_1" none
      = .ok ("Successfully deleted deployment: " ++ "dep_1") :=
  c9_delete_deployment_confirmation.1 jsonParseAt "http://localhost:9070" "dep_1"
    (fun _ => FetchOutcome.response ⟨204, "No Content", none, none, ""⟩)
    none ⟨204, "No Content", none, none, ""⟩ rfl rfl

/-- C10: the fallback substitution in `listInvocations` is
truthiness-based, not presence-based: a present-but-falsy column value
behaves exactly like an absent one — `jsOrJson` on a falsy value equals
`jsOrJson` on an absent one, a present falsy status becomes `Running`,
a present falsy started_at becomes the current timestamp, a
present-but-falsy object_key is dropped, and the empty string, zero,
false and null are all falsy. -/
theorem c10_truthiness_fallbacks :
    (∀ (v fallback : Json), v.truthy = false →
      jsOrJson (some v) fallback = jsOrJson none fallback)
    ∧ (∀ now row v, Json.lookup row "status" = some v → v.truthy = false →
        (projectInvocationRow now row).status = Json.str "Running")
    ∧ (∀ now row v, Json.lookup row "started_at" = some v → v.truthy = false →
        (projectInvocationRow now row).started_at = Json.str now)
    ∧ (∀ now row v, Json.lookup row "object_key" = some v → v.truthy = false →
        (projectInvocationRow now row).object_key = none)
    ∧ ((Json.str "").truthy = false ∧ (Json.num 0).truthy = false
        ∧ (Json.bool false).truthy = false ∧ Json.null.truthy = false) := by
  refine ⟨?_, ?_, ?_, ?_, by decide, by decide, by decide, rfl⟩
  · intro v fallback h
    simp [jsOrJson, h]
  all_goals intro now row v hv h
  all_goals simp [projectInvocationRow, jsOrJson, jsOrDrop, hv, h]

/-- C10 witness: a row whose status and started_at are the empty string
and whose object_key is 0 gets the fallbacks exactly as if those
columns were absent. -/
theorem c10_truthiness_fallbacks_witness :
    (projectInvocationRow "2024-01-01T00:00:00.000Z"
        (Json.obj [("status", Json.str ""), ("started_at", Json.str ""),
          ("object_key", Json.num 0)])).status = Json.str "Running"
    ∧ (projectInvocationRow "2024-01-01T00:00:00.000Z"
        (Json.obj [("status", Json.str ""), ("started_at", Json.str ""),
          ("object_key", Json.num 0)])).started_at
      = Json.str "2024-01-01T00:00:00.000Z"
    ∧ (projectInvocationRow "2024-01-01T00:00:00.000Z"
        (Json.obj [("status", Json.str ""), ("started_at", Json.str ""),
          ("object_key", Json.num 0)])).object_key = none :=
  ⟨c10_truthiness_fallbacks.2.1 "2024-01-01T00:00:00.000Z"
      (Json.obj [("status", Json.str ""), ("started_at", Json.str ""),
        ("object_key", Json.num 0)]) (Json.str "") rfl rfl,
   c10_truthiness_fallbacks.2.2.1 "2024-01-01T00:00:00.000Z"
      (Json.obj [("status", Json.str ""), ("started_at", Json.str ""),
        ("object_key", Json.num 0)]) (Json.str "") rfl rfl,
   c10_truthiness_fallbacks.2.2.2.1 "2024-01-01T00:00:00.000Z"
      (Json.obj [("status", Json.str ""), ("started_at", Json.str ""),
        ("object_key", Json.num 0)]) (Json.num 0) rfl rfl⟩

end RestateMcp
